import Mathlib

/-!
# Verification of the subagent execution supervisor

Shallow embedding of the stream-draining / idle-timeout / result-classifier
core of the repository (`run_subagent.py`, `lib/modules/run_subagent_exec.py`,
`lib/__init__.py`, `lib/modules/validate_response.py`,
`lib/modules/run_subagent_claude.py`), together with theorems settling the
spec claims about it.
-/

namespace Supervisor

/-- A JSON value, as produced by `json.loads`.  Numbers are modelled as
integers; the claims never depend on numeric contents. -/
inductive Json where
  | str (s : String)
  | num (n : Int)
  | bool (b : Bool)
  | null
  | arr (xs : List Json)
  | obj (fields : List (String × Json))
deriving Repr, Inhabited

mutual

/-- Decidable equality for `Json`. -/
def Json.beq : Json → Json → Bool
  | .str a, .str b => a == b
  | .num a, .num b => a == b
  | .bool a, .bool b => a == b
  | .null, .null => true
  | .arr a, .arr b => Json.beqList a b
  | .obj a, .obj b => Json.beqFields a b
  | _, _ => false

/-- Element-wise equality for JSON arrays. -/
def Json.beqList : List Json → List Json → Bool
  | [], [] => true
  | x :: xs, y :: ys => Json.beq x y && Json.beqList xs ys
  | _, _ => false

/-- Element-wise equality for JSON object field lists. -/
def Json.beqFields : List (String × Json) → List (String × Json) → Bool
  | [], [] => true
  | (k, v) :: xs, (l, w) :: ys => k == l && Json.beq v w && Json.beqFields xs ys
  | _, _ => false

end

/-! ## Stream Drainer (`read_stream`)

```python
def read_stream(stream, out_queue):
    try:
        while True:
            chunk = stream.read(1024)
            if not chunk:
                break
            out_queue.put(chunk)
    finally:
        out_queue.put(None)
```

A stream is modelled by the sequence of results its successive `read(1024)`
calls return: each call either yields a string chunk (the empty string
signalling end-of-stream) or raises.  The drainer's observable behaviour is
the ordered list of items it enqueues (`some chunk`, or `none` for the
terminal sentinel). -/

/-- Result of one `stream.read(1024)` call: a chunk (possibly empty,
meaning end-of-stream) or a raised exception. -/
inductive ReadResult where
  | chunk (s : String)
  | raise
deriving Repr, DecidableEq

/-- The items `read_stream` enqueues, in order.  Reading stops at the first
empty chunk (end-of-stream) or raised exception; the `finally` block
enqueues the `none` sentinel exactly once in every case.  An exhausted
event list is read as end-of-stream. -/
def read_stream : List ReadResult → List (Option String)
  | [] => [none]
  | ReadResult.raise :: _ => [none]
  | ReadResult.chunk s :: rest =>
      if s.isEmpty then [none] else some s :: read_stream rest

/-- The non-empty chunks the stream actually delivers before its
end-of-stream or exception, in order. -/
def streamChunks : List ReadResult → List String
  | [] => []
  | ReadResult.raise :: _ => []
  | ReadResult.chunk s :: rest =>
      if s.isEmpty then [] else s :: streamChunks rest

theorem read_stream_eq (reads : List ReadResult) :
    read_stream reads = (streamChunks reads).map some ++ [none] := by
  induction reads with
  | nil => rfl
  | cons r rest ih =>
    cases r with
    | raise => rfl
    | chunk s =>
      by_cases h : s.isEmpty <;> simp [read_stream, streamChunks, h, ih]

theorem streamChunks_nonempty (reads : List ReadResult) :
    ∀ s ∈ streamChunks reads, ¬ s.isEmpty := by
  induction reads with
  | nil => simp [streamChunks]
  | cons r rest ih =>
    cases r with
    | raise => simp [streamChunks]
    | chunk s =>
      by_cases h : s.isEmpty
      · simp [streamChunks, h]
      · simp only [streamChunks, h, if_false, List.mem_cons]
        intro t hmem
        cases hmem with
        | head => exact h
        | tail _ ht => exact ih t ht

theorem streamChunks_sublist (reads : List ReadResult) :
    ∀ s ∈ streamChunks reads, ReadResult.chunk s ∈ reads := by
  induction reads with
  | nil => simp [streamChunks]
  | cons r rest ih =>
    cases r with
    | raise => simp [streamChunks]
    | chunk s =>
      by_cases h : s.isEmpty
      · simp [streamChunks, h]
      · simp only [streamChunks, h, if_false, List.mem_cons]
        intro t hmem
        cases hmem with
        | head => exact Or.inl rfl
        | tail _ ht => exact Or.inr (ih t ht)

/-- C8: For every input stream, the Stream Drainer (`read_stream`) enqueues
exactly the stream's non-empty chunks, each of size at most 1024 units, in
the order read, followed by exactly one terminal sentinel (`None`); the
sentinel is enqueued exactly once even if reading raises, and it is always
the last item the drainer enqueues. -/
theorem read_stream_chunks_then_single_sentinel
    (reads : List ReadResult)
    (hsize : ∀ s, ReadResult.chunk s ∈ reads → s.length ≤ 1024) :
    read_stream reads = (streamChunks reads).map some ++ [none]
    ∧ (∀ s ∈ streamChunks reads, ¬ s.isEmpty ∧ s.length ≤ 1024)
    ∧ (read_stream reads).count none = 1
    ∧ (read_stream reads).getLast? = some none := by
  refine ⟨read_stream_eq reads, ?_, ?_, ?_⟩
  · intro s hs
    exact ⟨streamChunks_nonempty reads s hs, hsize s (streamChunks_sublist reads s hs)⟩
  · rw [read_stream_eq, List.count_append]
    have hnm : (none : Option String) ∉ (streamChunks reads).map some := by
      simp
    rw [List.count_eq_zero_of_not_mem hnm]
    rfl
  · rw [read_stream_eq]
    exact List.getLast?_concat _

/-- Witness for C8 on a concrete stream: two reads, the second empty
(end-of-stream). -/
theorem read_stream_chunks_then_single_sentinel_witness :
    read_stream [ReadResult.chunk "ab", ReadResult.chunk ""]
      = (streamChunks [ReadResult.chunk "ab", ReadResult.chunk ""]).map some ++ [none]
    ∧ (∀ s ∈ streamChunks [ReadResult.chunk "ab", ReadResult.chunk ""],
        ¬ s.isEmpty ∧ s.length ≤ 1024)
    ∧ (read_stream [ReadResult.chunk "ab", ReadResult.chunk ""]).count none = 1
    ∧ (read_stream [ReadResult.chunk "ab", ReadResult.chunk ""]).getLast? = some none :=
  read_stream_chunks_then_single_sentinel _ (by
    intro s hs
    simp only [List.mem_cons, List.not_mem_nil, or_false] at hs
    rcases hs with h | h <;> (injection h with h; subst h; decide))

/-! ## Idle Watchdog (the `while True` monitor loop)

```python
last_output = time.monotonic()
stdout_done = False
stderr_done = False
timed_out = False
while True:
    try:
        item = stdout_queue.get(timeout=0.1)
        if item is None: stdout_done = True
        else: stdout_chunks.append(item)
    except Empty: pass
    try:
        item = stderr_queue.get_nowait()
        if item is None: stderr_done = True
        else:
            stderr_chunks.append(item)
            last_output = time.monotonic()
    except Empty: pass
    if stdout_done and stderr_done: break
    if time.monotonic() - last_output > idle_timeout:
        timed_out = True
        proc.kill()
        break
```

Each loop iteration is driven by what the two queue reads return and by the
values the monotonic clock yields at the two points where it is read.  An
iteration is therefore modelled by an `Obs` record, and the loop by folding
the step function over a schedule of observations. -/

/-- Result of one queue poll: the `Empty` exception, or an item
(`got none` is the drainer's terminal sentinel, `got (some s)` a chunk). -/
inductive QueueEvent where
  | empty
  | got (item : Option String)
deriving Repr, DecidableEq

/-- `true` exactly when the poll returned a non-sentinel chunk. -/
def QueueEvent.isChunk : QueueEvent → Bool
  | QueueEvent.got (some _) => true
  | _ => false

/-- One iteration's inputs: the two queue poll results and the clock values
`time.monotonic()` would yield at the reset point (`tErr`, read only when a
stderr chunk arrives) and at the idle check (`tChk`). -/
structure Obs where
  outEv : QueueEvent
  errEv : QueueEvent
  tErr : Nat
  tChk : Nat
deriving Repr, DecidableEq

/-- The loop's mutable state. -/
structure WatchState where
  stdoutChunks : List String
  stderrChunks : List String
  stdoutDone : Bool
  stderrDone : Bool
  lastOutput : Nat
deriving Repr, DecidableEq

/-- Initial state: `last_output = time.monotonic()` taken at time `t0`,
both completion flags clear, no chunks accumulated. -/
def initWatchState (t0 : Nat) : WatchState :=
  { stdoutChunks := [], stderrChunks := [], stdoutDone := false,
    stderrDone := false, lastOutput := t0 }

/-- First `try` block: poll of the stdout queue. -/
def processOut (st : WatchState) (ev : QueueEvent) : WatchState :=
  match ev with
  | QueueEvent.empty => st
  | QueueEvent.got none => { st with stdoutDone := true }
  | QueueEvent.got (some s) => { st with stdoutChunks := st.stdoutChunks ++ [s] }

/-- Second `try` block: poll of the stderr queue; a chunk resets
`last_output` to the current clock value. -/
def processErr (st : WatchState) (ev : QueueEvent) (tErr : Nat) : WatchState :=
  match ev with
  | QueueEvent.empty => st
  | QueueEvent.got none => { st with stderrDone := true }
  | QueueEvent.got (some s) =>
      { st with stderrChunks := st.stderrChunks ++ [s], lastOutput := tErr }

/-- The state reached after both queue polls of one iteration. -/
def iterState (st : WatchState) (o : Obs) : WatchState :=
  processErr (processOut st o.outEv) o.errEv o.tErr

/-- How one loop iteration ends: `natural` is the dual-sentinel `break`,
`forced` is the idle-timeout `break` (which also kills the child and sets
`timed_out`). -/
inductive ExitKind where
  | natural
  | forced
deriving Repr, DecidableEq

/-- One full loop iteration: process both queue polls, then the two `break`
checks in program order.  `Sum.inl` means the loop continues with the new
state; `Sum.inr` means it exited. -/
def stepWatch (idleTimeout : Nat) (st : WatchState) (o : Obs) :
    WatchState ⊕ (ExitKind × WatchState) :=
  if (iterState st o).stdoutDone && (iterState st o).stderrDone then
    Sum.inr (ExitKind.natural, iterState st o)
  else if o.tChk - (iterState st o).lastOutput > idleTimeout then
    Sum.inr (ExitKind.forced, iterState st o)
  else Sum.inl (iterState st o)

/-- Run the loop over a finite prefix of the observation schedule.
`Sum.inl` means the loop is still running after those iterations. -/
def runWatch (idleTimeout : Nat) (st : WatchState) :
    List Obs → WatchState ⊕ (ExitKind × WatchState)
  | [] => Sum.inl st
  | o :: rest =>
    match stepWatch idleTimeout st o with
    | Sum.inl st' => runWatch idleTimeout st' rest
    | Sum.inr r => Sum.inr r

/-- The first `n` iterations of an infinite observation schedule. -/
def obsPrefix (s : Nat → Obs) (n : Nat) : List Obs :=
  (List.range n).map s

theorem processOut_lastOutput (st : WatchState) (ev : QueueEvent) :
    (processOut st ev).lastOutput = st.lastOutput := by
  cases ev with
  | empty => rfl
  | got item => cases item <;> rfl

theorem iterState_lastOutput (st : WatchState) (o : Obs) :
    (iterState st o).lastOutput
      = if o.errEv.isChunk then o.tErr else st.lastOutput := by
  unfold iterState
  cases h : o.errEv with
  | empty =>
    simp [processErr, QueueEvent.isChunk, processOut_lastOutput st o.outEv]
  | got item =>
    cases item with
    | none =>
      simp [processErr, QueueEvent.isChunk, processOut_lastOutput st o.outEv]
    | some s =>
      simp [processErr, QueueEvent.isChunk]

/-- C2: In every iteration of the Watchdog loop, the ActivityClock
(`last_output`) is reset to the current clock value if and only if a
non-sentinel chunk was received from the diagnostic (stderr) queue in that
iteration; otherwise it is left unchanged, and in particular chunks
received from the output (stdout) queue never change it. -/
theorem activity_clock_resets_iff_stderr_chunk
    (st : WatchState) (o : Obs) :
    (processErr (processOut st o.outEv) o.errEv o.tErr).lastOutput
      = (if o.errEv.isChunk then o.tErr else st.lastOutput)
    ∧ ∀ ev : QueueEvent, (processOut st ev).lastOutput = st.lastOutput :=
  ⟨iterState_lastOutput st o, fun ev => processOut_lastOutput st ev⟩

/-- Witness for C2: an iteration that receives a stdout chunk and a stderr
chunk at clock value 5 resets the ActivityClock to 5. -/
theorem activity_clock_resets_iff_stderr_chunk_witness :
    (processErr
      (processOut (initWatchState 0)
        (Obs.mk (QueueEvent.got (some "o")) (QueueEvent.got (some "e")) 5 9).outEv)
      (Obs.mk (QueueEvent.got (some "o")) (QueueEvent.got (some "e")) 5 9).errEv
      (Obs.mk (QueueEvent.got (some "o")) (QueueEvent.got (some "e")) 5 9).tErr).lastOutput
      = (if (Obs.mk (QueueEvent.got (some "o")) (QueueEvent.got (some "e")) 5 9).errEv.isChunk
          then (Obs.mk (QueueEvent.got (some "o")) (QueueEvent.got (some "e")) 5 9).tErr
          else (initWatchState 0).lastOutput) :=
  (activity_clock_resets_iff_stderr_chunk (initWatchState 0)
    (Obs.mk (QueueEvent.got (some "o")) (QueueEvent.got (some "e")) 5 9)).1

theorem obsPrefix_succ (s : Nat → Obs) (n : Nat) :
    obsPrefix s (n + 1) = obsPrefix s n ++ [s n] := by
  unfold obsPrefix
  rw [List.range_succ, List.map_append]
  rfl

theorem runWatch_append_inl (t : Nat) (st st' : WatchState) (l1 l2 : List Obs)
    (h : runWatch t st l1 = Sum.inl st') :
    runWatch t st (l1 ++ l2) = runWatch t st' l2 := by
  induction l1 generalizing st with
  | nil =>
    simp only [runWatch] at h
    cases h
    rfl
  | cons o rest ih =>
    simp only [runWatch, List.cons_append] at h ⊢
    cases hs : stepWatch t st o with
    | inl stm => rw [hs] at h; exact ih stm h
    | inr r => rw [hs] at h; cases h

theorem runWatch_append_inr (t : Nat) (st : WatchState) (l1 l2 : List Obs)
    (r : ExitKind × WatchState)
    (h : runWatch t st l1 = Sum.inr r) :
    runWatch t st (l1 ++ l2) = Sum.inr r := by
  induction l1 generalizing st with
  | nil => simp only [runWatch] at h; cases h
  | cons o rest ih =>
    simp only [runWatch, List.cons_append] at h ⊢
    cases hs : stepWatch t st o with
    | inl stm => rw [hs] at h; exact ih stm h
    | inr r' => rw [hs] at h; rw [h]

theorem runWatch_stable (t : Nat) (st : WatchState) (s : Nat → Obs)
    (n m : Nat) (r : ExitKind × WatchState) (hnm : n ≤ m)
    (h : runWatch t st (obsPrefix s n) = Sum.inr r) :
    runWatch t st (obsPrefix s m) = Sum.inr r := by
  induction m with
  | zero =>
    have : n = 0 := Nat.le_zero.mp hnm
    subst this
    exact h
  | succ m ih =>
    rcases Nat.lt_or_ge n (m + 1) with hlt | hge
    · have hm : runWatch t st (obsPrefix s m) = Sum.inr r :=
        ih (Nat.lt_succ_iff.mp hlt)
      rw [obsPrefix_succ]
      exact runWatch_append_inr t st _ _ r hm
    · have : n = m + 1 := Nat.le_antisymm hnm hge
      subst this
      exact h

theorem stepWatch_exit_kind (t : Nat) (st : WatchState) (o : Obs)
    (k : ExitKind) (st2 : WatchState)
    (h : stepWatch t st o = Sum.inr (k, st2)) :
    (k = ExitKind.natural ↔ (st2.stdoutDone = true ∧ st2.stderrDone = true)) := by
  unfold stepWatch at h
  by_cases hd : ((iterState st o).stdoutDone && (iterState st o).stderrDone) = true
  · rw [if_pos hd] at h
    cases h
    simp only [Bool.and_eq_true] at hd
    exact ⟨fun _ => hd, fun _ => rfl⟩
  · rw [if_neg hd] at h
    by_cases hidle : o.tChk - (iterState st o).lastOutput > t
    · rw [if_pos hidle] at h
      cases h
      simp only [Bool.and_eq_true] at hd
      constructor
      · intro hk; cases hk
      · intro hb; exact absurd hb hd
    · rw [if_neg hidle] at h
      cases h

theorem runWatch_exit_kind (t : Nat) (st : WatchState) (l : List Obs)
    (k : ExitKind) (st2 : WatchState)
    (h : runWatch t st l = Sum.inr (k, st2)) :
    (k = ExitKind.natural ↔ (st2.stdoutDone = true ∧ st2.stderrDone = true)) := by
  induction l generalizing st with
  | nil => simp only [runWatch] at h; cases h
  | cons o rest ih =>
    simp only [runWatch] at h
    cases hs : stepWatch t st o with
    | inl stm => rw [hs] at h; exact ih stm h
    | inr r =>
      rw [hs] at h
      cases h
      exact stepWatch_exit_kind t st o k st2 hs

theorem stepWatch_inl_state (t : Nat) (st st' : WatchState) (o : Obs)
    (h : stepWatch t st o = Sum.inl st') : st' = iterState st o := by
  unfold stepWatch at h
  by_cases hd : ((iterState st o).stdoutDone && (iterState st o).stderrDone) = true
  · rw [if_pos hd] at h; cases h
  · rw [if_neg hd] at h
    by_cases hidle : o.tChk - (iterState st o).lastOutput > t
    · rw [if_pos hidle] at h; cases h
    · rw [if_neg hidle] at h; cases h; rfl

theorem runWatch_lastOutput_const (t : Nat) (st : WatchState) (s : Nat → Obs)
    (N : Nat) (stN : WatchState)
    (hq : ∀ i, N ≤ i → (s i).errEv.isChunk = false)
    (hN : runWatch t st (obsPrefix s N) = Sum.inl stN) :
    ∀ m, N ≤ m → ∀ stm, runWatch t st (obsPrefix s m) = Sum.inl stm →
      stm.lastOutput = stN.lastOutput := by
  intro m
  induction m with
  | zero =>
    intro hm stm hstm
    have : N = 0 := Nat.le_zero.mp hm
    subst this
    rw [hN] at hstm
    cases hstm
    rfl
  | succ m ih =>
    intro hm stm hstm
    rcases Nat.lt_or_ge N (m + 1) with hlt | hge
    · have hNm : N ≤ m := Nat.lt_succ_iff.mp hlt
      rw [obsPrefix_succ] at hstm
      cases hprev : runWatch t st (obsPrefix s m) with
      | inl stp =>
        rw [runWatch_append_inl t st stp _ _ hprev] at hstm
        simp only [runWatch] at hstm
        cases hs : stepWatch t stp (s m) with
        | inl stq =>
          rw [hs] at hstm
          simp only [runWatch] at hstm
          injection hstm with heq
          subst heq
          have h1 : stq = iterState stp (s m) := stepWatch_inl_state t stp stq (s m) hs
          have h2 : stq.lastOutput = stp.lastOutput := by
            rw [h1, iterState_lastOutput, hq m hNm]
            simp
          rw [h2]
          exact ih hNm stp hprev
        | inr r =>
          rw [hs] at hstm
          cases hstm
      | inr r =>
        rw [runWatch_append_inr t st _ _ r hprev] at hstm
        cases hstm
    · have hEq : N = m + 1 := Nat.le_antisymm hm hge
      subst hEq
      rw [hN] at hstm
      cases hstm
      rfl

theorem stepWatch_exits_of_idle (t : Nat) (st : WatchState) (o : Obs)
    (hnc : o.errEv.isChunk = false)
    (hidle : st.lastOutput + t < o.tChk) :
    ∃ r, stepWatch t st o = Sum.inr r := by
  unfold stepWatch
  by_cases hd : ((iterState st o).stdoutDone && (iterState st o).stderrDone) = true
  · exact ⟨_, if_pos hd⟩
  · have hlo : (iterState st o).lastOutput = st.lastOutput := by
      rw [iterState_lastOutput, hnc]
      simp
    have hgt : o.tChk - (iterState st o).lastOutput > t := by
      rw [hlo]
      omega
    exact ⟨(ExitKind.forced, iterState st o), by rw [if_neg hd, if_pos hgt]⟩

/-- C3: Every execution of the Watchdog loop (over a schedule in which the
diagnostic stream is eventually silent and the monotonic clock diverges)
terminates; the exit decision is unique across all prefixes of the
schedule, i.e. the loop exits exactly once; and the exit is through exactly
one of the two paths: natural completion exactly when sentinels from both
stream queues have been received, forced termination exactly otherwise.  In
particular a schedule in which the stdout queue never yields data (a silent
stream) but the stderr stream completes normally still reaches a terminal
decision. -/
theorem watchdog_terminates_unique_exit
    (idleTimeout t0 : Nat) (s : Nat → Obs)
    (hquiet : ∃ N, ∀ i, N ≤ i → (s i).errEv.isChunk = false)
    (hdiv : ∀ B : Nat, ∃ i, ∀ j, i ≤ j → B < (s j).tChk) :
    (∃ n r, runWatch idleTimeout (initWatchState t0) (obsPrefix s n) = Sum.inr r)
    ∧ (∀ n m r r',
        runWatch idleTimeout (initWatchState t0) (obsPrefix s n) = Sum.inr r →
        runWatch idleTimeout (initWatchState t0) (obsPrefix s m) = Sum.inr r' →
        r = r')
    ∧ (∀ n k st',
        runWatch idleTimeout (initWatchState t0) (obsPrefix s n) = Sum.inr (k, st') →
        ((k = ExitKind.natural ↔ (st'.stdoutDone = true ∧ st'.stderrDone = true))
          ∧ (k = ExitKind.forced ↔ ¬(st'.stdoutDone = true ∧ st'.stderrDone = true)))) := by
  obtain ⟨N, hqN⟩ := hquiet
  refine ⟨?_, ?_, ?_⟩
  · cases hrunN : runWatch idleTimeout (initWatchState t0) (obsPrefix s N) with
    | inr r => exact ⟨N, r, hrunN⟩
    | inl stN =>
      obtain ⟨i0, hi0⟩ := hdiv (stN.lastOutput + idleTimeout)
      cases hrunM : runWatch idleTimeout (initWatchState t0) (obsPrefix s (max N i0)) with
      | inr r => exact ⟨max N i0, r, hrunM⟩
      | inl stM =>
        have hMN : N ≤ max N i0 := le_max_left _ _
        have hlo : stM.lastOutput = stN.lastOutput :=
          runWatch_lastOutput_const idleTimeout (initWatchState t0) s N stN hqN
            hrunN (max N i0) hMN stM hrunM
        have hchk : stN.lastOutput + idleTimeout < (s (max N i0)).tChk :=
          hi0 (max N i0) (le_max_right _ _)
        obtain ⟨r, hr⟩ :=
          stepWatch_exits_of_idle idleTimeout stM (s (max N i0))
            (hqN (max N i0) hMN) (by rw [hlo]; exact hchk)
        refine ⟨max N i0 + 1, r, ?_⟩
        rw [obsPrefix_succ, runWatch_append_inl idleTimeout _ stM _ _ hrunM]
        simp only [runWatch, hr]
  · intro n m r r' hrn hrm
    rcases Nat.le_total n m with h | h
    · have hst := runWatch_stable idleTimeout (initWatchState t0) s n m r h hrn
      rw [hst] at hrm
      injection hrm
    · have hst := runWatch_stable idleTimeout (initWatchState t0) s m n r' h hrm
      rw [hst] at hrn
      injection hrn with h2
      exact h2.symm
  · intro n k st' hrun
    have hnat := runWatch_exit_kind idleTimeout (initWatchState t0)
      (obsPrefix s n) k st' hrun
    refine ⟨hnat, ?_⟩
    cases k with
    | natural =>
      have hb := hnat.mp rfl
      constructor
      · intro hk
        cases hk
      · intro hnb
        exact absurd hb hnb
    | forced =>
      constructor
      · intro _ hb
        have hcontra : ExitKind.forced = ExitKind.natural := hnat.mpr hb
        exact absurd hcontra (by decide)
      · intro _
        rfl

/-- Witness for C3 on a concrete schedule: both queues always empty (the
child produces nothing); with idle timeout 1 starting at clock 0 and the
clock advancing one unit per iteration, the loop reaches a terminal
decision, that decision is unique, and its kind is characterized by the
completion flags. -/
theorem watchdog_terminates_unique_exit_witness :
    (∃ n r, runWatch 1 (initWatchState 0)
        (obsPrefix (fun i => Obs.mk QueueEvent.empty QueueEvent.empty i i) n)
        = Sum.inr r)
    ∧ (∀ n m r r',
        runWatch 1 (initWatchState 0)
          (obsPrefix (fun i => Obs.mk QueueEvent.empty QueueEvent.empty i i) n)
          = Sum.inr r →
        runWatch 1 (initWatchState 0)
          (obsPrefix (fun i => Obs.mk QueueEvent.empty QueueEvent.empty i i) m)
          = Sum.inr r' →
        r = r')
    ∧ (∀ n k st',
        runWatch 1 (initWatchState 0)
          (obsPrefix (fun i => Obs.mk QueueEvent.empty QueueEvent.empty i i) n)
          = Sum.inr (k, st') →
        ((k = ExitKind.natural ↔ (st'.stdoutDone = true ∧ st'.stderrDone = true))
          ∧ (k = ExitKind.forced ↔ ¬(st'.stdoutDone = true ∧ st'.stderrDone = true)))) :=
  watchdog_terminates_unique_exit 1 0 _
    ⟨0, fun _ _ => rfl⟩
    (fun B => ⟨B + 1, fun j hj => by simpa using hj⟩)

/-! ## Process Launcher and Result Classifier (`execute_subagent`)

After the watchdog loop returns, `execute_subagent` proceeds:

```python
    if timed_out:
        write_fallback_response(..., ["timeout", f"no stderr output for {idle_timeout}s"])
        return 1
    if proc.returncode != 0 and stderr_text.strip():
        print(f"Warning: ...", file=sys.stderr)
    try:
        raw_response = response_path.read_text(encoding="utf-8-sig")
    except FileNotFoundError:
        write_fallback_response(..., ["missing response.json", f"exit code: {proc.returncode}"])
        return 1
    try:
        json.loads(raw_response)
    except json.JSONDecodeError:
        write_fallback_response(..., ["invalid json response", f"exit code: {proc.returncode}"])
        return 1
    return proc.returncode
```

`run_subagent.py`'s `main` (lines 259-313) runs the same chain with one
divergence: after the warning check on the accumulated text it repeats the
check against the pipe object itself,

```python
    if proc.returncode != 0 and stderr_text.strip():
        print(f"Warning: ...", file=sys.stderr)
    if proc.returncode != 0 and proc.stderr.strip():
        print(f"Warning: ...", file=sys.stderr)
```

and `proc.stderr` is the child's `io.TextIOWrapper` pipe handle, which has
no `.strip()`: the second check raises an uncaught `AttributeError`
whenever the run did not time out and the child exited non-zero, crashing
the supervisor before the artifact is read.  Both variants are embedded
below.

At launch time (both files):

```python
    try:
        proc.stdin.write(prompt)
        proc.stdin.close()
    except Exception:
        proc.kill()
        raise
```

The effectful inputs (did the stdin write succeed, did the watchdog time
out, what the child exited with, what the artifact file holds) are
collected in an environment record; `json.loads` is an external library,
modelled by an abstract parse function. -/

/-- Terminal classification assigned by the Result Classifier. -/
inductive Classification where
  | timeout
  | missingOutput
  | invalidOutput
  | passthrough
deriving Repr, DecidableEq

/-- Observable result of the post-watchdog part of `execute_subagent`:
which branch classified the run, the supervisor's returned exit code, the
`issues` list of the fallback document written (`none` if no fallback
document was written), and whether the non-zero-exit warning was printed. -/
structure ExecResult where
  outcome : Classification
  exitCode : Int
  fallbackIssues : Option (List String)
  warned : Bool
deriving Repr, DecidableEq

/-- Truthiness of Python's `stderr_text.strip()`: the stripped string is
non-empty exactly when some character is not whitespace. -/
def stripNonempty (s : String) : Bool :=
  s.data.any (fun c => !c.isWhitespace)

/-- The classifier chain of `run_subagent_exec.py`'s `execute_subagent`
(lines 230-315), evaluated in program order: timeout check, the single
non-zero-exit warning on the accumulated `stderr_text`, artifact read,
artifact parse, exit code passthrough. -/
def classifySubagent (parse : String → Option Json) (idleTimeout : Nat)
    (timedOut : Bool) (returncode : Int) (stderrText : String)
    (artifact : Option String) : ExecResult :=
  if timedOut then
    { outcome := Classification.timeout, exitCode := 1,
      fallbackIssues := some ["timeout",
        "no stderr output for " ++ toString idleTimeout ++ "s"],
      warned := false }
  else
    let warned := decide (returncode ≠ 0) && stripNonempty stderrText
    match artifact with
    | none =>
        { outcome := Classification.missingOutput, exitCode := 1,
          fallbackIssues := some ["missing response.json",
            "exit code: " ++ toString returncode],
          warned := warned }
    | some raw =>
      match parse raw with
      | none =>
          { outcome := Classification.invalidOutput, exitCode := 1,
            fallbackIssues := some ["invalid json response",
              "exit code: " ++ toString returncode],
            warned := warned }
      | some _ =>
          { outcome := Classification.passthrough, exitCode := returncode,
            fallbackIssues := none, warned := warned }

/-- The uncaught `AttributeError` raised by `run_subagent.py` line 281
(`proc.stderr.strip()` on the pipe's `io.TextIOWrapper`); `warnedFirst`
records whether the preceding (correct) warning check on `stderr_text` had
already printed. -/
structure AttributeError where
  warnedFirst : Bool
deriving Repr, DecidableEq

/-- The post-watchdog chain of `run_subagent.py`'s `main` (lines 259-313).
It matches `classifySubagent` except for the second warning check
`if proc.returncode != 0 and proc.stderr.strip():`, which raises an
uncaught `AttributeError` (`Except.error`) whenever the run did not time
out and the child's exit code is non-zero — the supervisor crashes before
the artifact is ever read.  On the surviving paths the final
`raise SystemExit(proc.returncode)` / fall-through reproduces the same
exit codes as `execute_subagent`. -/
def classifySubagentMain (parse : String → Option Json) (idleTimeout : Nat)
    (timedOut : Bool) (returncode : Int) (stderrText : String)
    (artifact : Option String) : Except AttributeError ExecResult :=
  if timedOut then
    Except.ok
      { outcome := Classification.timeout, exitCode := 1,
        fallbackIssues := some ["timeout",
          "no stderr output for " ++ toString idleTimeout ++ "s"],
        warned := false }
  else
    let warned := decide (returncode ≠ 0) && stripNonempty stderrText
    if returncode ≠ 0 then
      Except.error { warnedFirst := warned }
    else
      match artifact with
      | none =>
          Except.ok
            { outcome := Classification.missingOutput, exitCode := 1,
              fallbackIssues := some ["missing response.json",
                "exit code: " ++ toString returncode],
              warned := warned }
      | some raw =>
        match parse raw with
        | none =>
            Except.ok
              { outcome := Classification.invalidOutput, exitCode := 1,
                fallbackIssues := some ["invalid json response",
                  "exit code: " ++ toString returncode],
                warned := warned }
        | some _ =>
            Except.ok
              { outcome := Classification.passthrough,
                exitCode := returncode, fallbackIssues := none,
                warned := warned }

/-- A launch-time failure: the prompt write raised, the child was killed
and the exception re-raised to the caller. -/
structure LaunchError where
  childKilled : Bool
deriving Repr, DecidableEq

/-- Effectful inputs of one `execute_subagent` run. -/
structure ExecEnv where
  stdinWriteOk : Bool
  timedOut : Bool
  returncode : Int
  stderrText : String
  artifact : Option String
deriving Repr, DecidableEq

/-- `execute_subagent` from the prompt write onwards: a failed write kills
the child and propagates the exception (`Except.error`); otherwise the
watchdog runs and the classifier chain produces the result. -/
def execute_subagent (parse : String → Option Json) (idleTimeout : Nat)
    (env : ExecEnv) : Except LaunchError ExecResult :=
  if env.stdinWriteOk then
    Except.ok (classifySubagent parse idleTimeout env.timedOut env.returncode
      env.stderrText env.artifact)
  else
    Except.error { childKilled := true }

/-- Whether a run wrote a fallback document. -/
def fallbackWritten : Except LaunchError ExecResult → Bool
  | Except.ok r => r.fallbackIssues.isSome
  | Except.error _ => false

/-- Whether a run was classified as a run-time timeout. -/
def classifiedTimeout : Except LaunchError ExecResult → Bool
  | Except.ok r => r.outcome == Classification.timeout
  | Except.error _ => false

/-- Supporting analysis for the `run_subagent_exec.py` copy: for every
combination of (timed-out flag, artifact existence, artifact parseability)
its classifier deterministically assigns the single documented outcome, in
strict order, with the documented fallback issues. -/
theorem classifier_strict_order_cases
    (parse : String → Option Json) (idleTimeout : Nat)
    (timedOut : Bool) (returncode : Int) (stderrText : String)
    (artifact : Option String) :
    (timedOut = true →
      (classifySubagent parse idleTimeout timedOut returncode stderrText
        artifact).outcome = Classification.timeout)
    ∧ (timedOut = false → artifact = none →
      (classifySubagent parse idleTimeout timedOut returncode stderrText
        artifact).outcome = Classification.missingOutput
      ∧ (classifySubagent parse idleTimeout timedOut returncode stderrText
          artifact).fallbackIssues
        = some ["missing response.json", "exit code: " ++ toString returncode])
    ∧ (∀ raw, timedOut = false → artifact = some raw → parse raw = none →
      (classifySubagent parse idleTimeout timedOut returncode stderrText
        artifact).outcome = Classification.invalidOutput
      ∧ (classifySubagent parse idleTimeout timedOut returncode stderrText
          artifact).fallbackIssues
        = some ["invalid json response", "exit code: " ++ toString returncode])
    ∧ (∀ raw j, timedOut = false → artifact = some raw → parse raw = some j →
      (classifySubagent parse idleTimeout timedOut returncode stderrText
        artifact).outcome = Classification.passthrough
      ∧ (classifySubagent parse idleTimeout timedOut returncode stderrText
          artifact).exitCode = returncode) := by
  refine ⟨?_, ?_, ?_, ?_⟩
  · intro ht
    subst ht
    rfl
  · intro ht ha
    subst ht
    subst ha
    exact ⟨rfl, rfl⟩
  · intro raw ht ha hp
    subst ht
    subst ha
    simp only [classifySubagent, hp]
    exact ⟨rfl, rfl⟩
  · intro raw j ht ha hp
    subst ht
    subst ha
    simp only [classifySubagent, hp]
    exact ⟨rfl, rfl⟩

/-- C1 (code bug at `run_subagent.py` line 281): the documented classifier
behaviour holds for `run_subagent_exec.py` — at the spec's scenario
(artifact absent, child exit code 7, no timeout) it assigns MissingOutput
with issues "missing response.json" and "exit code: 7" — but
`run_subagent.py`'s `main` raises an uncaught AttributeError at its
`proc.stderr.strip()` check on those same inputs, before the artifact
read, so the documented MissingOutput/InvalidOutput outcomes with a
non-zero exit code, and the non-zero passthrough, are unreachable in that
copy. -/
theorem classifier_missing_output_unreachable_in_main :
    (classifySubagent (fun _ => none) 60 false 7 "" none).outcome
      = Classification.missingOutput
    ∧ (classifySubagent (fun _ => none) 60 false 7 "" none).fallbackIssues
      = some ["missing response.json", "exit code: 7"]
    ∧ classifySubagentMain (fun _ => none) 60 false 7 "" none
      = Except.error { warnedFirst := false } :=
  ⟨rfl, rfl, rfl⟩

/-- C4: The supervisor's exit code is the fixed failure value 1 whenever
the run is classified Timeout, MissingOutput, or InvalidOutput — never the
child's code — and on the passthrough (success) path it is the child's own
exit code, hence 0 on classified success. -/
theorem supervisor_exit_code_mapping
    (parse : String → Option Json) (idleTimeout : Nat)
    (timedOut : Bool) (returncode : Int) (stderrText : String)
    (artifact : Option String) :
    ((classifySubagent parse idleTimeout timedOut returncode stderrText
        artifact).outcome = Classification.timeout
      ∨ (classifySubagent parse idleTimeout timedOut returncode stderrText
        artifact).outcome = Classification.missingOutput
      ∨ (classifySubagent parse idleTimeout timedOut returncode stderrText
        artifact).outcome = Classification.invalidOutput →
      (classifySubagent parse idleTimeout timedOut returncode stderrText
        artifact).exitCode = 1)
    ∧ ((classifySubagent parse idleTimeout timedOut returncode stderrText
        artifact).outcome = Classification.passthrough →
      (classifySubagent parse idleTimeout timedOut returncode stderrText
        artifact).exitCode = returncode) := by
  cases timedOut with
  | true =>
    refine ⟨fun _ => rfl, fun h => ?_⟩
    simp [classifySubagent] at h
  | false =>
    cases artifact with
    | none =>
      refine ⟨fun _ => rfl, fun h => ?_⟩
      simp [classifySubagent] at h
    | some raw =>
      cases hp : parse raw with
      | none =>
        refine ⟨fun _ => ?_, fun h => ?_⟩
        · simp [classifySubagent, hp]
        · simp [classifySubagent, hp] at h
      | some j =>
        refine ⟨fun h => ?_, fun _ => ?_⟩
        · simp [classifySubagent, hp] at h
        · simp [classifySubagent, hp]

/-- Witness for C4: a timed-out run exits with code 1 even though the
child's own code was 7; a clean passthrough returns the child's code. -/
theorem supervisor_exit_code_mapping_witness :
    (classifySubagent (fun _ => none) 60 true 7 "" none).exitCode = 1 :=
  (supervisor_exit_code_mapping (fun _ => none) 60 true 7 "" none).1
    (Or.inl rfl)

/-- C6 (code bug at `run_subagent.py` line 281): at the claim's scenario —
exit code 3, non-empty diagnostic text "boom", no timeout, artifact
present and parseable — `run_subagent_exec.py` behaves as claimed (warning
flagged, passthrough of the child's code, no fallback), but
`run_subagent.py`'s `main` prints the first warning and then crashes with
an uncaught AttributeError at `proc.stderr.strip()`, before the artifact
is read, so the child's output is never accepted there. -/
theorem nonzero_exit_crashes_main_accepted_in_exec :
    (classifySubagent (fun _ => some Json.null) 60 false 3 "boom"
      (some "{}")).warned = true
    ∧ (classifySubagent (fun _ => some Json.null) 60 false 3 "boom"
      (some "{}")).outcome = Classification.passthrough
    ∧ (classifySubagent (fun _ => some Json.null) 60 false 3 "boom"
      (some "{}")).fallbackIssues = none
    ∧ (classifySubagent (fun _ => some Json.null) 60 false 3 "boom"
      (some "{}")).exitCode = 3
    ∧ classifySubagentMain (fun _ => some Json.null) 60 false 3 "boom"
      (some "{}")
      = Except.error { warnedFirst := true } :=
  ⟨rfl, rfl, rfl, rfl, rfl⟩

/-- C7: If writing the rendered prompt to the child's input pipe fails, the
Launcher kills the child and re-raises the failure to the caller; no
fallback document is written and the failure is never classified as a
run-time timeout. -/
theorem launch_failure_kills_and_reraises
    (parse : String → Option Json) (idleTimeout : Nat) (env : ExecEnv)
    (h : env.stdinWriteOk = false) :
    execute_subagent parse idleTimeout env
      = Except.error { childKilled := true }
    ∧ fallbackWritten (execute_subagent parse idleTimeout env) = false
    ∧ classifiedTimeout (execute_subagent parse idleTimeout env) = false := by
  have he : execute_subagent parse idleTimeout env
      = Except.error { childKilled := true } := by
    unfold execute_subagent
    rw [h]
    rfl
  rw [he]
  exact ⟨rfl, rfl, rfl⟩

/-- Witness for C7: a run whose stdin write fails. -/
theorem launch_failure_kills_and_reraises_witness :
    execute_subagent (fun _ => none) 60
      (ExecEnv.mk false false 0 "" none)
      = Except.error { childKilled := true }
    ∧ fallbackWritten (execute_subagent (fun _ => none) 60
        (ExecEnv.mk false false 0 "" none)) = false
    ∧ classifiedTimeout (execute_subagent (fun _ => none) 60
        (ExecEnv.mk false false 0 "" none)) = false :=
  launch_failure_kills_and_reraises (fun _ => none) 60 _ rfl

/-! ## Fallback Writer (`write_fallback_response`, `lib/__init__.py`)

```python
    try:
        template = load_response_template()
        defaults = get_response_default_values()
        payload = {}
        for key in template.keys():
            if key in defaults:
                payload[key] = defaults[key]
        payload["version"] = template.get("version", "1.0")
        payload["task_id"] = task_id or ""
        payload["status"] = "failed"
        payload["summary"] = summary
        payload["issues"] = issues if issues else []
    except Exception:
        payload = {
            "version": "1.0", "task_id": task_id or "", "status": "failed",
            "summary": summary, "outputs": [], "issues": issues if issues else [],
        }
    response_path.write_text(json.dumps(payload, ...))
```

JSON objects (Python dicts) are modelled as ordered key/value lists with
dict-style update semantics. -/

/-- Python dict read `obj.get(k)` / `obj[k]`. -/
def lookupKey (obj : List (String × Json)) (k : String) : Option Json :=
  (obj.find? (fun p => p.1 == k)).map (fun p => p.2)

/-- Python dict membership `k in obj`. -/
def hasKey (obj : List (String × Json)) (k : String) : Bool :=
  obj.any (fun p => p.1 == k)

/-- Python dict assignment `obj[k] = v`: update in place when the key is
present, append otherwise. -/
def setKey (obj : List (String × Json)) (k : String) (v : Json) :
    List (String × Json) :=
  if hasKey obj k then
    obj.map (fun p => if p.1 == k then (k, v) else p)
  else obj ++ [(k, v)]

/-- `get_response_default_values` (schema_loader.py): scalar template
values are kept, lists default to `[]`, dicts to `{}`; every template key
receives a default. -/
def defaultValue : Json → Json
  | Json.arr _ => Json.arr []
  | Json.obj _ => Json.obj []
  | v => v

/-- The template-copy loop of `write_fallback_response`: since `defaults`
covers every template key, the payload starts as the template with every
value defaulted. -/
def templateDefaults (template : List (String × Json)) : List (String × Json) :=
  template.map (fun p => (p.1, defaultValue p.2))

/-- `write_fallback_response`: the document written to the artifact path.
`template = none` models `load_response_template()` raising, which takes
the hardcoded-shape `except` branch. -/
def write_fallback_response (template : Option (List (String × Json)))
    (taskId : Option String) (summary : String) (issues : List Json) :
    List (String × Json) :=
  match template with
  | some t =>
    setKey (setKey (setKey (setKey (setKey (templateDefaults t)
      "version" ((lookupKey t "version").getD (Json.str "1.0")))
      "task_id" (Json.str (taskId.getD "")))
      "status" (Json.str "failed"))
      "summary" (Json.str summary))
      "issues" (Json.arr (if issues.isEmpty then [] else issues))
  | none =>
    [("version", Json.str "1.0"),
     ("task_id", Json.str (taskId.getD "")),
     ("status", Json.str "failed"),
     ("summary", Json.str summary),
     ("outputs", Json.arr []),
     ("issues", Json.arr (if issues.isEmpty then [] else issues))]

/-- The response contract's always-required fields
(`get_response_required_fields` in schema_loader.py). -/
def requiredResponseFields : List String :=
  ["version", "task_id", "status", "summary", "outputs", "issues"]

theorem lookupKey_cons (p : String × Json) (rest : List (String × Json))
    (k : String) :
    lookupKey (p :: rest) k
      = if p.1 == k then some p.2 else lookupKey rest k := by
  cases hp : (p.1 == k) with
  | true => simp [lookupKey, List.find?_cons, hp]
  | false => simp [lookupKey, List.find?_cons, hp]

theorem hasKey_cons (p : String × Json) (rest : List (String × Json))
    (k : String) :
    hasKey (p :: rest) k = ((p.1 == k) || hasKey rest k) := by
  simp [hasKey]

theorem lookupKey_map_update_same (o : List (String × Json)) (k : String)
    (v : Json) (h : hasKey o k = true) :
    lookupKey (o.map (fun p => if p.1 == k then (k, v) else p)) k = some v := by
  induction o with
  | nil => simp [hasKey] at h
  | cons p rest ih =>
    rw [List.map_cons]
    cases hp : (p.1 == k) with
    | true => simp [hp, lookupKey_cons]
    | false =>
      rw [hasKey_cons, hp, Bool.false_or] at h
      simp only [hp, Bool.false_eq_true, if_false, lookupKey_cons, hp]
      exact ih h

theorem lookupKey_append_single_same (o : List (String × Json)) (k : String)
    (v : Json) :
    lookupKey o k = none → lookupKey (o ++ [(k, v)]) k = some v := by
  induction o with
  | nil =>
    intro _
    simp [lookupKey_cons, lookupKey]
  | cons p rest ih =>
    intro h
    rw [lookupKey_cons] at h
    cases hp : (p.1 == k) with
    | true =>
      rw [hp] at h
      simp at h
    | false =>
      rw [hp] at h
      simp only [Bool.false_eq_true, if_false] at h
      rw [List.cons_append, lookupKey_cons, hp]
      simp only [Bool.false_eq_true, if_false]
      exact ih h

theorem lookupKey_map_update_other (o : List (String × Json)) (k k' : String)
    (v : Json) (hne : k' ≠ k) :
    lookupKey (o.map (fun p => if p.1 == k then (k, v) else p)) k'
      = lookupKey o k' := by
  have hkk : (k == k') = false := by
    simp only [beq_eq_false_iff_ne, ne_eq]
    exact fun hc => hne hc.symm
  induction o with
  | nil => rfl
  | cons p rest ih =>
    rw [List.map_cons]
    cases hp : (p.1 == k) with
    | true =>
      have hpk : p.1 = k := by simpa using hp
      have hpk' : (p.1 == k') = false := by rw [hpk]; exact hkk
      simp only [hp, if_true, lookupKey_cons, hkk, hpk']
      simp only [Bool.false_eq_true, if_false]
      exact ih
    | false =>
      simp only [hp, Bool.false_eq_true, if_false, lookupKey_cons]
      cases hq : (p.1 == k') with
      | true => simp
      | false =>
        simp only [Bool.false_eq_true, if_false]
        exact ih

theorem lookupKey_append_single_other (o : List (String × Json)) (k k' : String)
    (v : Json) (hne : k' ≠ k) :
    lookupKey (o ++ [(k, v)]) k' = lookupKey o k' := by
  have hkk : (k == k') = false := by
    simp only [beq_eq_false_iff_ne, ne_eq]
    exact fun hc => hne hc.symm
  induction o with
  | nil =>
    rw [List.nil_append, lookupKey_cons]
    simp only [hkk, Bool.false_eq_true, if_false]
  | cons p rest ih =>
    rw [List.cons_append, lookupKey_cons, lookupKey_cons]
    cases hq : (p.1 == k') with
    | true => simp
    | false =>
      simp only [Bool.false_eq_true, if_false]
      exact ih

theorem lookupKey_none_of_hasKey_false (o : List (String × Json)) (k : String)
    (h : hasKey o k = false) : lookupKey o k = none := by
  induction o with
  | nil => rfl
  | cons p rest ih =>
    rw [hasKey_cons, Bool.or_eq_false_iff] at h
    rw [lookupKey_cons, h.1]
    simp only [Bool.false_eq_true, if_false]
    exact ih h.2

theorem lookupKey_setKey (o : List (String × Json)) (k k' : String) (v : Json) :
    lookupKey (setKey o k v) k'
      = if k' = k then some v else lookupKey o k' := by
  by_cases hk : k' = k
  · subst hk
    rw [if_pos rfl]
    unfold setKey
    by_cases h : hasKey o k' = true
    · rw [if_pos h]
      exact lookupKey_map_update_same o k' v h
    · rw [if_neg h]
      exact lookupKey_append_single_same o k' v
        (lookupKey_none_of_hasKey_false o k'
          (Bool.not_eq_true _ ▸ eq_false_of_ne_true h))
  · rw [if_neg hk]
    unfold setKey
    by_cases h : hasKey o k = true
    · rw [if_pos h]
      exact lookupKey_map_update_other o k k' v hk
    · rw [if_neg h]
      exact lookupKey_append_single_other o k k' v hk

theorem hasKey_of_lookupKey (o : List (String × Json)) (k : String) (v : Json)
    (h : lookupKey o k = some v) : hasKey o k = true := by
  induction o with
  | nil => cases h
  | cons p rest ih =>
    rw [lookupKey_cons] at h
    rw [hasKey_cons]
    by_cases hp : (p.1 == k) = true
    · rw [hp, Bool.true_or]
    · rw [if_neg hp] at h
      rw [ih h, Bool.or_true]

theorem lookupKey_templateDefaults (t : List (String × Json)) (k : String) :
    lookupKey (templateDefaults t) k
      = (lookupKey t k).map defaultValue := by
  induction t with
  | nil => rfl
  | cons p rest ih =>
    unfold templateDefaults at ih ⊢
    rw [List.map_cons, lookupKey_cons, lookupKey_cons]
    by_cases hp : (p.1 == k) = true
    · rw [hp]
      rfl
    · rw [if_neg hp, if_neg hp]
      exact ih

/-- Modelled from the spec: the repository's
`.agent/templates/template_response.json` (a data file, not among the
supervisor sources) supplies defaults for the response contract's required
fields — "version, task identifier, status (one of success/partial/failed),
summary, outputs, issues" — with `outputs` and `issues` carried as arrays. -/
def templateResponseModel : List (String × Json) :=
  [("version", Json.str "1.0"), ("task_id", Json.str ""),
   ("status", Json.str "success"), ("summary", Json.str ""),
   ("outputs", Json.arr []), ("issues", Json.arr [])]

/-- C5: Every document produced by the Fallback Writer — for any issues
list actually passed by a call site (all are non-empty) and any loadable
template carrying the contract's `outputs` field as an array — satisfies
the external response contract: all required fields are present, `status`
equals "failed", `outputs` is empty and the `issues` list is the non-empty
one supplied; this also holds when the template source is unavailable, via
the minimal hardcoded document shape. -/
theorem fallback_document_satisfies_contract
    (template : Option (List (String × Json))) (taskId : Option String)
    (summary : String) (issues : List Json)
    (hIss : issues ≠ [])
    (hOut : ∀ t, template = some t →
      ∃ xs, lookupKey t "outputs" = some (Json.arr xs)) :
    (∀ k ∈ requiredResponseFields,
      hasKey (write_fallback_response template taskId summary issues) k = true)
    ∧ lookupKey (write_fallback_response template taskId summary issues)
        "status" = some (Json.str "failed")
    ∧ lookupKey (write_fallback_response template taskId summary issues)
        "outputs" = some (Json.arr [])
    ∧ lookupKey (write_fallback_response template taskId summary issues)
        "issues" = some (Json.arr issues) := by
  have hie : issues.isEmpty = false := by
    cases issues with
    | nil => exact absurd rfl hIss
    | cons a as => rfl
  cases template with
  | none =>
    refine ⟨?_, ?_, ?_, ?_⟩
    · intro k hk
      fin_cases hk <;> simp [write_fallback_response, hasKey]
    · simp [write_fallback_response, lookupKey_cons]
    · simp [write_fallback_response, lookupKey_cons]
    · simp [write_fallback_response, lookupKey_cons, hie]
  | some t =>
    obtain ⟨xs, hxs⟩ := hOut t rfl
    have hver : lookupKey (write_fallback_response (some t) taskId summary
        issues) "version"
        = some ((lookupKey t "version").getD (Json.str "1.0")) := by
      simp [write_fallback_response, lookupKey_setKey]
    have htid : lookupKey (write_fallback_response (some t) taskId summary
        issues) "task_id" = some (Json.str (taskId.getD "")) := by
      simp [write_fallback_response, lookupKey_setKey]
    have hst : lookupKey (write_fallback_response (some t) taskId summary
        issues) "status" = some (Json.str "failed") := by
      simp [write_fallback_response, lookupKey_setKey]
    have hsum : lookupKey (write_fallback_response (some t) taskId summary
        issues) "summary" = some (Json.str summary) := by
      simp [write_fallback_response, lookupKey_setKey]
    have hout : lookupKey (write_fallback_response (some t) taskId summary
        issues) "outputs" = some (Json.arr []) := by
      simp only [write_fallback_response, lookupKey_setKey,
        lookupKey_templateDefaults, hxs]
      norm_num
      rfl
    have hiss : lookupKey (write_fallback_response (some t) taskId summary
        issues) "issues" = some (Json.arr issues) := by
      simp [write_fallback_response, lookupKey_setKey, hie]
    refine ⟨?_, hst, hout, hiss⟩
    intro k hk
    fin_cases hk
    · exact hasKey_of_lookupKey _ _ _ hver
    · exact hasKey_of_lookupKey _ _ _ htid
    · exact hasKey_of_lookupKey _ _ _ hst
    · exact hasKey_of_lookupKey _ _ _ hsum
    · exact hasKey_of_lookupKey _ _ _ hout
    · exact hasKey_of_lookupKey _ _ _ hiss

/-- Witness for C5: the Fallback Writer applied to the modelled response
template (and, the same call, to an unavailable template) with the timeout
call site's issues list. -/
theorem fallback_document_satisfies_contract_witness :
    ((∀ k ∈ requiredResponseFields,
      hasKey (write_fallback_response (some templateResponseModel) none
        "Subagent timed out" [Json.str "timeout"]) k = true)
    ∧ lookupKey (write_fallback_response (some templateResponseModel) none
        "Subagent timed out" [Json.str "timeout"])
        "status" = some (Json.str "failed")
    ∧ lookupKey (write_fallback_response (some templateResponseModel) none
        "Subagent timed out" [Json.str "timeout"])
        "outputs" = some (Json.arr [])
    ∧ lookupKey (write_fallback_response (some templateResponseModel) none
        "Subagent timed out" [Json.str "timeout"])
        "issues" = some (Json.arr [Json.str "timeout"])) := by
  refine fallback_document_satisfies_contract (some templateResponseModel)
    none "Subagent timed out" [Json.str "timeout"] (by simp) ?_
  intro t ht
  injection ht with ht
  subst ht
  exact ⟨[], rfl⟩

/-! ## Response validation (`validate_response_file`,
`lib/modules/validate_response.py`)

```python
    if not response_path.exists():
        return {"valid": False, "errors": [...], "response_obj": None}
    try:
        response_obj = json.loads(response_path.read_text(...))
    except json.JSONDecodeError as e:
        return {"valid": False, "errors": [...], "response_obj": None}
    if check_required_fields:
        try:
            template = load_response_template()
            missing_fields = set(template.keys()) - set(response_obj.keys())
            if missing_fields: errors.append(...)
            extra_fields = set(response_obj.keys()) - set(template.keys())
            if extra_fields: errors.append(...)
            if "status" in response_obj:
                if response_obj["status"] not in ("success", "partial", "failed"):
                    errors.append(...)
        except Exception as e:
            errors.append(f"Could not load template for validation: {e}")
    return {"valid": len(errors) == 0, "errors": errors, ...}
```
-/

/-- Validation outcome (the `valid`/`errors` keys of the returned dict). -/
structure ValidationResult where
  valid : Bool
  errors : List String
deriving Repr, DecidableEq

/-- The `valid_statuses` tuple. -/
def validStatuses : List String := ["success", "partial", "failed"]

/-- `set(template.keys()) - set(response_obj.keys())`. -/
def missingFields (t fields : List (String × Json)) : List String :=
  (t.map Prod.fst).filter (fun k => !(fields.map Prod.fst).contains k)

/-- `set(response_obj.keys()) - set(template.keys())`. -/
def extraFields (t fields : List (String × Json)) : List String :=
  (fields.map Prod.fst).filter (fun k => !(t.map Prod.fst).contains k)

/-- The status-field check: an error when a `status` key is present with a
value outside `valid_statuses` (a non-string value is never in the
tuple). -/
def statusErrors (fields : List (String × Json)) : List String :=
  match lookupKey fields "status" with
  | none => []
  | some (Json.str s) =>
      if validStatuses.contains s then [] else ["Invalid status: " ++ s]
  | some _ => ["Invalid status"]

/-- The errors accumulated by the `check_required_fields` block, in
program order. -/
def fieldErrors (t fields : List (String × Json)) : List String :=
  (if (missingFields t fields).isEmpty then []
    else ["Response JSON missing fields"])
  ++ (if (extraFields t fields).isEmpty then []
    else ["Response JSON has extra fields not in template"])
  ++ statusErrors fields

/-- `validate_response_file`, with `json.loads` abstracted as `parse`,
`load_response_template()` as `template` (`none` models the loader
raising), and the file as `none` when `response_path.exists()` is false.
A parsed value that is not a JSON object makes `response_obj.keys()`
raise, landing in the same `except` branch as a template-loading
failure. -/
def validate_response_file (template : Option (List (String × Json)))
    (parse : String → Option Json) (file : Option String)
    (checkRequiredFields : Bool) : ValidationResult :=
  match file with
  | none => { valid := false, errors := ["Response file not found"] }
  | some raw =>
    match parse raw with
    | none => { valid := false, errors := ["Response JSON is invalid"] }
    | some obj =>
      if checkRequiredFields then
        match template, obj with
        | some t, Json.obj fields =>
          { valid := (fieldErrors t fields).isEmpty,
            errors := fieldErrors t fields }
        | _, _ =>
          { valid := false,
            errors := ["Could not load template for validation"] }
      else { valid := true, errors := [] }

theorem statusErrors_eq_nil_iff (fields : List (String × Json)) :
    statusErrors fields = []
    ↔ (∀ v, lookupKey fields "status" = some v →
        v = Json.str "success" ∨ v = Json.str "partial"
          ∨ v = Json.str "failed") := by
  unfold statusErrors
  cases hv : lookupKey fields "status" with
  | none => simp
  | some v =>
    simp only [Option.some.injEq, forall_eq']
    cases v with
    | str s =>
      by_cases hs : validStatuses.contains s = true
      · simp only [hs, if_true, true_iff]
        have : s = "success" ∨ s = "partial" ∨ s = "failed" := by
          simpa [validStatuses] using hs
        rcases this with h | h | h
        · exact Or.inl (by rw [h])
        · exact Or.inr (Or.inl (by rw [h]))
        · exact Or.inr (Or.inr (by rw [h]))
      · have hs' : validStatuses.contains s = false :=
          Bool.not_eq_true _ ▸ eq_false_of_ne_true hs
        simp only [hs', Bool.false_eq_true, if_false]
        constructor
        · intro hcontra
          cases hcontra
        · intro hor
          exfalso
          apply hs
          rcases hor with h | h | h <;>
            (injection h with h; rw [h]; rfl)
    | num n => simp
    | bool b => simp
    | null => simp
    | arr xs => simp
    | obj o => simp

theorem missingFields_isEmpty_iff (t fields : List (String × Json)) :
    (missingFields t fields).isEmpty = true
    ↔ ∀ k ∈ t.map Prod.fst, k ∈ fields.map Prod.fst := by
  simp [missingFields, List.isEmpty_iff, List.filter_eq_nil_iff]

theorem extraFields_isEmpty_iff (t fields : List (String × Json)) :
    (extraFields t fields).isEmpty = true
    ↔ ∀ k ∈ fields.map Prod.fst, k ∈ t.map Prod.fst := by
  simp [extraFields, List.isEmpty_iff, List.filter_eq_nil_iff]

theorem fieldErrors_isEmpty_iff (t fields : List (String × Json)) :
    (fieldErrors t fields).isEmpty = true
    ↔ ((∀ k ∈ t.map Prod.fst, k ∈ fields.map Prod.fst)
      ∧ (∀ k ∈ fields.map Prod.fst, k ∈ t.map Prod.fst)
      ∧ (∀ v, lookupKey fields "status" = some v →
          v = Json.str "success" ∨ v = Json.str "partial"
            ∨ v = Json.str "failed")) := by
  rw [← missingFields_isEmpty_iff, ← extraFields_isEmpty_iff,
    ← statusErrors_eq_nil_iff]
  unfold fieldErrors
  by_cases h1 : (missingFields t fields).isEmpty = true
  · by_cases h2 : (extraFields t fields).isEmpty = true
    · simp [h1, h2, List.isEmpty_iff]
    · simp [h1, h2, List.isEmpty_iff]
  · by_cases h2 : (extraFields t fields).isEmpty = true
    · simp [h1, h2, List.isEmpty_iff]
    · simp [h1, h2, List.isEmpty_iff]

/-- C9: `validate_response_file` (with a loadable template and required
field checking on) reports a response valid if and only if the file
exists, its content parses as JSON, the parsed value is an object whose
key set equals the template's key set exactly — any missing and any extra
field each make it invalid — and, when a `status` field is present, its
value is one of "success", "partial", "failed". -/
theorem validate_response_valid_iff
    (t : List (String × Json)) (parse : String → Option Json)
    (file : Option String) :
    (validate_response_file (some t) parse file true).valid = true
    ↔ ∃ raw fields, file = some raw ∧ parse raw = some (Json.obj fields)
      ∧ (∀ k, k ∈ t.map Prod.fst ↔ k ∈ fields.map Prod.fst)
      ∧ (∀ v, lookupKey fields "status" = some v →
          v = Json.str "success" ∨ v = Json.str "partial"
            ∨ v = Json.str "failed") := by
  cases file with
  | none => simp [validate_response_file]
  | some raw =>
    cases hp : parse raw with
    | none => simp [validate_response_file, hp]
    | some obj =>
      cases obj with
      | obj fields =>
        simp only [validate_response_file, hp, if_true]
        rw [fieldErrors_isEmpty_iff]
        constructor
        · rintro ⟨hmiss, hextra, hstatus⟩
          exact ⟨raw, fields, rfl, hp,
            fun k => ⟨fun hk => hmiss k hk, fun hk => hextra k hk⟩, hstatus⟩
        · rintro ⟨raw', fields', hraw, hfields, hkeys, hstatus⟩
          injection hraw with hraw
          subst hraw
          rw [hp] at hfields
          injection hfields with hfields
          injection hfields with hfields
          subst hfields
          exact ⟨fun k hk => (hkeys k).mp hk, fun k hk => (hkeys k).mpr hk,
            hstatus⟩
      | str s => simp [validate_response_file, hp]
      | num n => simp [validate_response_file, hp]
      | bool b => simp [validate_response_file, hp]
      | null => simp [validate_response_file, hp]
      | arr xs => simp [validate_response_file, hp]

/-- Witness for C9: a file whose content parses to an object identical in
shape to the modelled template is reported valid. -/
theorem validate_response_valid_iff_witness :
    (validate_response_file (some templateResponseModel)
      (fun s => if s == "ok" then some (Json.obj templateResponseModel)
        else none)
      (some "ok") true).valid = true :=
  (validate_response_valid_iff templateResponseModel
    (fun s => if s == "ok" then some (Json.obj templateResponseModel)
      else none)
    (some "ok")).mpr
    ⟨"ok", templateResponseModel, rfl, rfl, fun _ => Iff.rfl,
      fun v hv => by
        injection hv with hv
        exact Or.inl hv.symm⟩

/-! ## Claude API engine (`run_tool_loop` / `execute_subagent_claude`,
`lib/modules/run_subagent_claude.py`)

```python
def run_tool_loop(client, model, system_prompt, user_message,
                  max_iterations=25, stderr_path=None):
    for iteration in range(max_iterations):
        try:
            response = client.messages.create(...)
        except Exception as e:
            return {"status": "failed", "error": f"API call failed: {e}",
                    "tool_results": tool_results, ...}
        if response.stop_reason == "end_turn":
            return {"status": "success", "summary": final_text,
                    "tool_results": tool_results, ...}
        ... execute tool calls, extend tool_results ...
    return {"status": "partial", "summary": "Maximum iterations reached",
            "tool_results": tool_results, ...}
```

and in `execute_subagent_claude`:

```python
    response_obj = {"version": "1.0", "task_id": ..., "status":
        result.get("status", "failed"), "summary": result.get("summary", ""),
        "outputs": result.get("tool_results", []), "issues": []}
    if "error" in result:
        response_obj["issues"] = [result["error"]]
    response_path.write_text(json.dumps(response_obj, ...))
    exit_code = 0 if result.get("status") == "success" else 1
    ...
    return exit_code
```
-/

/-- One `client.messages.create` call's outcome: a response carrying its
stop reason, the concatenated text of its text blocks, and the results of
the tool calls its tool_use blocks trigger — or a raised exception. -/
inductive ApiResult where
  | response (stopReason : String) (text : String) (results : List Json)
  | exn (msg : String)
deriving Repr

/-- The dict `run_tool_loop` returns, restricted to the keys its caller
reads (`status`, `summary`, `tool_results`, `error`; a missing `summary`
key reads as `""` through `result.get("summary", "")`). -/
structure ToolLoopResult where
  status : String
  summary : String
  toolResults : List Json
  errorMsg : Option String
deriving Repr

/-- The `for iteration in range(max_iterations)` loop, driven by the i-th
API call result; falling off the loop yields the "partial" result. -/
def runToolLoopFrom (api : Nat → ApiResult) :
    Nat → List Json → Nat → ToolLoopResult
  | _, acc, 0 =>
      { status := "partial", summary := "Maximum iterations reached",
        toolResults := acc, errorMsg := none }
  | i, acc, fuel + 1 =>
    match api i with
    | ApiResult.exn msg =>
        { status := "failed", summary := "", toolResults := acc,
          errorMsg := some ("API call failed: " ++ msg) }
    | ApiResult.response stopReason text results =>
        if stopReason == "end_turn" then
          { status := "success", summary := text, toolResults := acc,
            errorMsg := none }
        else runToolLoopFrom api (i + 1) (acc ++ results) fuel

/-- `run_tool_loop` (default `max_iterations=25`). -/
def run_tool_loop (api : Nat → ApiResult)
    (maxIterations : Nat := 25) : ToolLoopResult :=
  runToolLoopFrom api 0 [] maxIterations

/-- `execute_subagent_claude` after the tool loop: the response document
written to the artifact path, paired with the returned exit code. -/
def execute_subagent_claude (taskId : String) (result : ToolLoopResult) :
    (List (String × Json)) × Int :=
  ([("version", Json.str "1.0"),
    ("task_id", Json.str taskId),
    ("status", Json.str result.status),
    ("summary", Json.str result.summary),
    ("outputs", Json.arr result.toolResults),
    ("issues", Json.arr (match result.errorMsg with
      | some e => [Json.str e]
      | none => []))],
   if result.status == "success" then 0 else 1)

theorem runToolLoopFrom_all_continue (api : Nat → ApiResult) :
    ∀ fuel i acc,
    (∀ j, j < fuel → ∃ stop text results,
      api (i + j) = ApiResult.response stop text results
        ∧ stop ≠ "end_turn") →
    (runToolLoopFrom api i acc fuel).status = "partial"
    ∧ (runToolLoopFrom api i acc fuel).summary
        = "Maximum iterations reached" := by
  intro fuel
  induction fuel with
  | zero => intro i acc _; exact ⟨rfl, rfl⟩
  | succ fuel ih =>
    intro i acc h
    obtain ⟨stop, text, results, hapi, hstop⟩ := h 0 (Nat.succ_pos fuel)
    rw [Nat.add_zero] at hapi
    have hbeq : (stop == "end_turn") = false := by
      simp [hstop]
    simp only [runToolLoopFrom, hapi, hbeq, Bool.false_eq_true, if_false]
    apply ih
    intro j hj
    obtain ⟨stop', text', results', hapi', hstop'⟩ :=
      h (j + 1) (Nat.succ_lt_succ hj)
    refine ⟨stop', text', results', ?_, hstop'⟩
    have : i + 1 + j = i + (j + 1) := by omega
    rw [this]
    exact hapi'

/-- C10: When the tool-use loop exhausts its maximum iterations without an
end_turn stop (and without an API error), `run_tool_loop` returns status
"partial" with summary "Maximum iterations reached"; the document
`execute_subagent_claude` writes to the artifact path carries that status
and summary, the returned exit code is 1, and in general the supervisor's
exit code is 0 if and only if the loop's result status is "success". -/
theorem claude_max_iterations_partial
    (api : Nat → ApiResult) (maxIterations : Nat) (taskId : String)
    (h : ∀ j, j < maxIterations → ∃ stop text results,
      api j = ApiResult.response stop text results ∧ stop ≠ "end_turn") :
    (run_tool_loop api maxIterations).status = "partial"
    ∧ (run_tool_loop api maxIterations).summary
        = "Maximum iterations reached"
    ∧ lookupKey (execute_subagent_claude taskId
        (run_tool_loop api maxIterations)).1 "status"
        = some (Json.str "partial")
    ∧ lookupKey (execute_subagent_claude taskId
        (run_tool_loop api maxIterations)).1 "summary"
        = some (Json.str "Maximum iterations reached")
    ∧ (execute_subagent_claude taskId
        (run_tool_loop api maxIterations)).2 = 1
    ∧ (∀ r : ToolLoopResult,
        (execute_subagent_claude taskId r).2 = 0 ↔ r.status = "success") := by
  have hmain : (run_tool_loop api maxIterations).status = "partial"
      ∧ (run_tool_loop api maxIterations).summary
        = "Maximum iterations reached" :=
    runToolLoopFrom_all_continue api maxIterations 0 []
      (by intro j hj; simpa using h j hj)
  have hst := hmain.1
  have hsum := hmain.2
  have hexit : ∀ r : ToolLoopResult,
      (execute_subagent_claude taskId r).2 = 0 ↔ r.status = "success" := by
    intro r
    unfold execute_subagent_claude
    cases hb : (r.status == "success") with
    | true =>
      have hs : r.status = "success" := by simpa using hb
      simp [hb, hs]
    | false =>
      simp only [hb, Bool.false_eq_true, if_false]
      constructor
      · intro hcontra
        cases hcontra
      · intro hs
        exfalso
        rw [hs] at hb
        simp at hb
  refine ⟨hst, hsum, ?_, ?_, ?_, hexit⟩
  · unfold execute_subagent_claude
    simp [lookupKey_cons, hst]
  · unfold execute_subagent_claude
    simp [lookupKey_cons, hsum]
  · unfold execute_subagent_claude
    have : ((run_tool_loop api maxIterations).status == "success") = false := by
      rw [hst]
      rfl
    simp [this]

/-- Witness for C10: two iterations whose responses always stop with
tool_use. -/
theorem claude_max_iterations_partial_witness :
    (run_tool_loop (fun _ => ApiResult.response "tool_use" "" []) 2).status
      = "partial"
    ∧ (run_tool_loop (fun _ => ApiResult.response "tool_use" "" []) 2).summary
        = "Maximum iterations reached"
    ∧ lookupKey (execute_subagent_claude "t1"
        (run_tool_loop (fun _ => ApiResult.response "tool_use" "" []) 2)).1
        "status" = some (Json.str "partial")
    ∧ lookupKey (execute_subagent_claude "t1"
        (run_tool_loop (fun _ => ApiResult.response "tool_use" "" []) 2)).1
        "summary" = some (Json.str "Maximum iterations reached")
    ∧ (execute_subagent_claude "t1"
        (run_tool_loop (fun _ => ApiResult.response "tool_use" "" []) 2)).2 = 1
    ∧ (∀ r : ToolLoopResult,
        (execute_subagent_claude "t1" r).2 = 0 ↔ r.status = "success") :=
  claude_max_iterations_partial (fun _ => ApiResult.response "tool_use" "" [])
    2 "t1"
    (fun j _ => ⟨"tool_use", "", [], rfl, by decide⟩)

end Supervisor
